import Mathlib

/-!
Verification development for the unfurlist metadata-unfurling service
(`unfurlist.go`, `html_meta_parser.go`).

The embedding is shallow: every Go function of the pipeline core is
translated into an executable Lean definition.  External collaborators
(the HTML tokenizer, charset reader, MIME sniffer, the oEmbed registry,
the OpenGraph parser living in other files, the memcached client, the
HTTP client) are modelled by their outputs: a `PageChunk` carries the
tokenizer's token stream and the sniffer's MIME string, and a `Handler`
carries the collaborator functions as explicit fields, so theorems
quantify over every possible collaborator behaviour.
-/

namespace Unfurlist

/-- Go `unfurlResult` (unfurlist.go): the per-URL output record.  The Go
field `Type` is rendered `Type'` because `Type` is reserved in Lean.
Zero values of Go (`""`, `0`) are the defaults. -/
structure UnfurlResult where
  URL : String := ""
  Title : String := ""
  Type' : String := ""
  Description : String := ""
  SiteName : String := ""
  Image : String := ""
  ImageWidth : Int := 0
  ImageHeight : Int := 0
  IconUrl : String := ""
  IconType : String := ""
  idx : Int := 0
deriving DecidableEq

/-- Go `unfurlResult.Empty`: `u.URL == "" && u.Title == "" && u.Type == ""
&& u.Description == "" && u.Image == ""`. -/
def UnfurlResult.Empty (u : UnfurlResult) : Bool :=
  decide (u.URL = "" ∧ u.Title = "" ∧ u.Type' = "" ∧ u.Description = "" ∧ u.Image = "")

/-- Go `unfurlResult.Merge` (unfurlist.go lines 129-163).  The argument
is a pointer (`*unfurlResult`), modelled as `Option`; the `nil` check at
the top returns the receiver unchanged.  Go mutates the receiver through
nine `if` statements executed in order; each guard tests exactly the
field (still unmodified at that point) that its body assigns — the last
one tests `u.IconUrl` and, when the incoming icon URL is non-empty,
assigns `IconType` and `IconUrl` together — so the sequential mutation
equals this simultaneous field-wise form. -/
def UnfurlResult.Merge (u : UnfurlResult) (u2 : Option UnfurlResult) : UnfurlResult :=
  match u2 with
  | none => u
  | some v =>
    { URL := if u.URL = "" then v.URL else u.URL
      Title := if u.Title = "" then v.Title else u.Title
      Type' := if u.Type' = "" then v.Type' else u.Type'
      Description := if u.Description = "" then v.Description else u.Description
      SiteName := if u.SiteName = "" then v.SiteName else u.SiteName
      Image := if u.Image = "" then v.Image else u.Image
      ImageWidth := if u.ImageWidth = 0 then v.ImageWidth else u.ImageWidth
      ImageHeight := if u.ImageHeight = 0 then v.ImageHeight else u.ImageHeight
      IconUrl := if u.IconUrl = "" ∧ v.IconUrl ≠ "" then v.IconUrl else u.IconUrl
      IconType := if u.IconUrl = "" ∧ v.IconUrl ≠ "" then v.IconType else u.IconType
      idx := u.idx }

/-- Go `Metadata` (fetch.go): the output contract of a custom fetcher.
`Type` is rendered `Type'`. -/
structure Metadata where
  Title : String := ""
  Type' : String := ""
  Description : String := ""
  Image : String := ""
  ImageWidth : Int := 0
  ImageHeight : Int := 0
  IconType : String := ""
  IconUrl : String := ""
deriving DecidableEq

/-- Go `Metadata.Valid` (fetch.go):
`return m != nil || m.Title != "" || m.Description != "" || m.Image != ""`.
The receiver is a pointer, modelled as `Option Metadata`.  Go's `||`
short-circuits: for a non-nil receiver `m != nil` is already `true`, so
the field tests are never evaluated (the `true ||` below keeps that
structure); for a nil receiver the access `m.Title` dereferences a nil
pointer and panics, modelled as `none`. -/
def Metadata.Valid : Option Metadata → Option Bool
  | some m =>
      some (true || decide (m.Title ≠ "") || decide (m.Description ≠ "") || decide (m.Image ≠ ""))
  | none => none

/-- Go `strings.HasPrefix` on the underlying character lists (the
iterator-based core `String` functions do not reduce in the kernel). -/
def goHasPfx (s pre : String) : Bool :=
  pre.data.isPrefixOf s.data

/-- Go `strings.HasSuffix` on the underlying character lists. -/
def goHasSfx (s suf : String) : Bool :=
  suf.data.isSuffixOf s.data

/-- Go `strings.ToLower` (ASCII range; Go lower-cases per Unicode, the
model per `Char.toLower`; the two agree on every input a theorem uses). -/
def goToLower (s : String) : String :=
  ⟨s.data.map Char.toLower⟩

/-- Go `strings.Contains` on the underlying character lists: `pat` occurs
contiguously in `hay` (the empty pattern matches everywhere, as in Go). -/
def charsContain (hay pat : List Char) : Bool :=
  if pat.isPrefixOf hay then true
  else
    match hay with
    | [] => false
    | _ :: t => charsContain t pat

/-- Go `strings.Contains sub ⊆ s` lifted to `String`. -/
def goContains (s sub : String) : Bool :=
  charsContain s.data sub.data

/-- Go `blacklisted` (unfurlist.go lines 472-483): lower-case the title
and test each blacklist entry for substring containment.  (Go lower-cases
per Unicode, the model per `Char.toLower`; all inputs used in theorems
are ASCII where the two agree.) -/
def blacklisted (blacklist : List String) (title : String) : Bool :=
  if title = "" ∨ blacklist = [] then false
  else
    let lt := goToLower title
    blacklist.any (fun s => goContains lt s)

/-! ### The generic HTML tag scan (`html_meta_parser.go`)

`extractData` drives `golang.org/x/net/html`'s tokenizer.  The tokenizer
is an external collaborator, so the model consumes its output: a list of
tokens.  `Token.startTag` covers both `StartTagToken` and
`SelfClosingTagToken` (the Go switch treats them identically);
`Token.other` covers end tags, comments and doctype tokens, which the
scan ignores; `Token.errTok` is an `ErrorToken` whose error is not
`io.EOF` (plain end of input is the end of the list).  Tag names are
already resolved through `atom.Lookup`: `Tag.other` is any atom the
switch does not handle. -/

/-- The tag atoms `extractData` dispatches on. -/
inductive Tag where
  | body
  | title
  | meta
  | link
  | other
deriving DecidableEq

/-- One token produced by the external HTML tokenizer. -/
inductive Token where
  | startTag (name : Tag) (attrs : List (String × String))
  | text (s : String)
  | errTok
  | other
deriving DecidableEq

/-- The four accumulator variables of `extractData`'s scanning loop. -/
structure ScanState where
  title : String := ""
  description : String := ""
  iconType : String := ""
  iconUrl : String := ""
deriving DecidableEq

/-- The attribute loop of the `atom.Meta` case (html_meta_parser.go lines
77-89): walk the attributes; a `name` attribute other than
`"description"` aborts the whole tag (Go `continue tokenize`, modelled as
`none`); a `name` of `"description"` sets the flag; each `content`
attribute overwrites the collected content. -/
def metaAttrs : List (String × String) → Bool → String → Option (Bool × String)
  | [], isDescription, content => some (isDescription, content)
  | (k, v) :: rest, isDescription, content =>
    if k = "name" then
      if v ≠ "description" then none
      else metaAttrs rest true content
    else if k = "content" then metaAttrs rest isDescription v
    else metaAttrs rest isDescription content

/-- The attribute loop of the `atom.Link` case (html_meta_parser.go lines
99-110): collect `rel`, `type` and `href`, later duplicates overwriting
earlier ones. -/
def linkAttrs (attrs : List (String × String)) : String × String × String :=
  attrs.foldl
    (fun acc kv =>
      if kv.1 = "rel" then (kv.2, acc.2.1, acc.2.2)
      else if kv.1 = "type" then (acc.1, kv.2, acc.2.2)
      else if kv.1 = "href" then (acc.1, acc.2.1, kv.2)
      else acc)
    ("", "", "")

/-- html_meta_parser.go line 111:
`isRelIcon := linkRel == "icon" || strings.HasPrefix(linkRel, "icon ") ||
strings.Contains(linkRel, " icon ") || strings.HasSuffix(linkRel, " icon")`. -/
def isRelIcon (linkRel : String) : Bool :=
  linkRel = "icon" || goHasPfx linkRel "icon " ||
    goContains linkRel " icon " || goHasSfx linkRel " icon"

/-- The tokenizing loop of `extractData` (html_meta_parser.go lines
47-121), returning the accumulator state at the point scanning stopped,
or an error for a tokenizer failure other than `io.EOF`.

In the `atom.Title` case the Go code performs an extra inner `z.Next()`:
if the next token is text it becomes the title, otherwise that token is
consumed and dropped; tokenizer errors are sticky, so when the inner read
hits an `ErrorToken` the outer loop's next read reports the same error,
inlined here as an immediate error.  After newly setting the title
(resp. description) the scan stops early when the other two fields are
already non-empty; the `atom.Link` case captures the icon and keeps
scanning. -/
def scanSt (st : ScanState) : List Token → Except Unit ScanState
  | [] => .ok st
  | .errTok :: _ => .error ()
  | .text _ :: rest => scanSt st rest
  | .other :: rest => scanSt st rest
  | .startTag tag attrs :: rest =>
    match tag with
    | .body => .ok st
    | .other => scanSt st rest
    | .title =>
      if st.title ≠ "" then scanSt st rest
      else
        match rest with
        | .text s :: rest2 =>
          let st' := { st with title := s }
          if st.description ≠ "" ∧ st.iconUrl ≠ "" then .ok st'
          else scanSt st' rest2
        | .errTok :: _ => .error ()
        | _ :: rest2 => scanSt st rest2
        | [] => .ok st
    | .meta =>
      if st.description ≠ "" then scanSt st rest
      else
        match metaAttrs attrs false "" with
        | none => scanSt st rest
        | some (isDescription, content) =>
          if isDescription ∧ content ≠ "" then
            let st' := { st with description := content }
            if st.title ≠ "" ∧ st.iconUrl ≠ "" then .ok st'
            else scanSt st' rest
          else scanSt st rest
    | .link =>
      let rth := linkAttrs attrs
      if isRelIcon rth.1 ∧ rth.2.2 ≠ "" then
        scanSt { st with iconUrl := rth.2.2, iconType := rth.2.1 } rest
      else scanSt st rest

deriving instance DecidableEq for Except

/-- The error cases of `extractData`. -/
inductive ExtractErr where
  | charsetError
  | tokenizerError
  | noMetadataFound
deriving DecidableEq

/-- The successful return of `extractData`: `(title, description,
iconType, iconUrl)`. -/
structure Extracted where
  title : String := ""
  description : String := ""
  iconType : String := ""
  iconUrl : String := ""
deriving DecidableEq

/-- Go `extractData` (html_meta_parser.go lines 41-127).  The charset
reader is external; its failure is the chunk's `charsetErr` flag.  The
`finish:` block returns the collected values when a title or description
was found and `errNoMetadataFound` (with empty strings) otherwise — in
particular a found icon is discarded in the error case. -/
def extractData (charsetErr : Bool) (tokens : List Token) : Except ExtractErr Extracted :=
  if charsetErr then .error .charsetError
  else
    match scanSt {} tokens with
    | .error _ => .error .tokenizerError
    | .ok st =>
      if st.title ≠ "" ∨ st.description ≠ "" then
        .ok { title := st.title, description := st.description,
              iconType := st.iconType, iconUrl := st.iconUrl }
      else .error .noMetadataFound

/-- Go `pageChunk` (unfurlist.go lines 392-396) together with the outputs
of the external collaborators that consume its raw bytes:
`sniffedType` is `http.DetectContentType(chunk.data)`, `tokens` is the
token stream the external tokenizer produces from `chunk.data`, and
`charsetErr` is whether `charset.NewReader(chunk.data, chunk.ct)` fails. -/
structure PageChunk where
  url : String := ""
  ct : String := ""
  sniffedType : String := "application/octet-stream"
  charsetErr : Bool := false
  tokens : List Token := []
deriving DecidableEq

/-- Go `basicParseHTML` (html_meta_parser.go lines 18-39).  `result.Type`
is first set to the sniffed MIME type and then overwritten by the matching
case of the switch; when no case matches it keeps the sniffed value. -/
def basicParseHTML (chunk : PageChunk) : UnfurlResult :=
  if goHasPfx chunk.sniffedType "image/" then
    { Type' := "image", Image := chunk.url }
  else if goHasPfx chunk.sniffedType "text/" then
    match extractData chunk.charsetErr chunk.tokens with
    | .ok e =>
      { Type' := "website", Title := e.title, Description := e.description,
        IconType := e.iconType, IconUrl := e.iconUrl }
    | .error _ => { Type' := "website" }
  else if goHasPfx chunk.sniffedType "video/" then
    { Type' := "video" }
  else
    { Type' := chunk.sniffedType }

/-! ### The per-URL pipeline (`unfurlist.go`)

`processURL` runs inside one goroutine after the in-flight coordinator
has admitted it as owner for its link (the coordinator itself is pure
concurrency bookkeeping and adds or removes no data).  Every collaborator
the pipeline calls — the memcached client, the blacklist trie built in
another file, the OpenGraph parser, the oEmbed registry and fetch, the
HTTP client, `absoluteImageURL`/`validURL`/`imageDimensions` from other
files of the repository — appears as a field of `Handler`, so the model
is a function of the handler configuration and collaborator behaviour. -/

/-- The outcome of one `http.Client.Do` call as far as `fetchData`
inspects it.  `zlibOk` is whether `zlib.NewReader` succeeds on the body
(only consulted for the deflate workaround), `readErr` whether the
bounded `ioutil.ReadAll` fails, and `chunk` the page chunk built from the
truncated body, the post-redirect URL and the Content-Type header. -/
structure FetchResponse where
  statusCode : Nat
  contentEncoding : String := ""
  host : String := ""
  zlibOk : Bool := true
  readErr : Bool := false
  chunk : PageChunk := {}
deriving DecidableEq

/-- The possible outcomes of the external `absoluteImageURL` helper:
success, the sentinel `errEmptyImageURL`, or any other error. -/
inductive AbsResult where
  | ok (abs : String)
  | errEmpty
  | errOther
deriving DecidableEq

/-- Go `unfurlHandler` restricted to the fields `processURL` and
`fetchData` read, with each external collaborator as a function field.
`hasCache`/`hasPmap` model the `nil` tests on `h.Cache`/`h.pmap`;
`cacheGet link = some r` models a memcached hit whose payload also
unmarshals, `none` a miss, a cache error or a decode failure. -/
structure Handler where
  hasCache : Bool := false
  cacheGet : String → Option UnfurlResult := fun _ => none
  hasPmap : Bool := false
  pmapMatch : String → Bool := fun _ => false
  fetchers : List (String → Option Metadata) := []
  titleBlacklist : List String := []
  openGraph : PageChunk → Option UnfurlResult := fun _ => none
  oembedEndpoint : PageChunk → Option String := fun _ => none
  fetchOembed : String → Option UnfurlResult := fun _ => none
  httpGet : String → Option FetchResponse := fun _ => none
  fetchImageSize : Bool := false
  imageDimensions : String → Option (Int × Int) := fun _ => none
  absoluteImageURL : String → String → AbsResult := fun _ _ => .errEmpty
  validURL : String → Bool := fun _ => false

/-- Go `fetchData` (unfurlist.go lines 433-462): one GET (no retry); an
HTTP status `>= http.StatusBadRequest` (400) is a terminal error; for a
deflate-encoded response from a `twitter.com` host the body goes through
`zlib.NewReader`, whose failure is an error; a failing bounded read is an
error; otherwise the chunk is returned. -/
def Handler.fetchData (h : Handler) (url : String) : Option PageChunk :=
  match h.httpGet url with
  | none => none
  | some resp =>
    if 400 ≤ resp.statusCode then none
    else if resp.contentEncoding = "deflate" ∧ goHasSfx resp.host "twitter.com" ∧ ¬resp.zlibOk then
      none
    else if resp.readErr then none
    else some resp.chunk

/-- The custom-fetcher loop head (unfurlist.go lines 322-336): the first
fetcher returning `ok` with a `Valid()` metadata wins.  A Go fetcher
returns `(*Metadata, bool)`; `none` models `ok = false` (a fetcher
returning a nil pointer together with `ok = true` would make `Valid()`
panic in Go and is not modelled). -/
def runFetchers : List (String → Option Metadata) → String → Option Metadata
  | [], _ => none
  | f :: fs, u =>
    match f u with
    | none => runFetchers fs u
    | some meta =>
      if Metadata.Valid (some meta) = some true then some meta
      else runFetchers fs u

/-- The body of the custom-fetcher match (unfurlist.go lines 327-334):
direct field assignments from the metadata into the result (URL,
SiteName and idx are untouched). -/
def setFromMeta (r : UnfurlResult) (meta : Metadata) : UnfurlResult :=
  { r with
    Title := meta.Title, Type' := meta.Type', Description := meta.Description,
    Image := meta.Image, ImageWidth := meta.ImageWidth, ImageHeight := meta.ImageHeight,
    IconUrl := meta.IconUrl, IconType := meta.IconType }

/-- The oEmbed block (unfurlist.go lines 344-349): if an endpoint is
found and the oEmbed fetch succeeds, merge its result; either way control
reaches the `hasMatch:` label next. -/
def oembedStep (h : Handler) (r : UnfurlResult) (chunk : PageChunk) : UnfurlResult :=
  match h.oembedEndpoint chunk with
  | some endpoint =>
    match h.fetchOembed endpoint with
    | some res => r.Merge (some res)
    | none => r
  | none => r

/-- The strategy chain before the `hasMatch:` label (unfurlist.go lines
322-349): custom fetchers, then OpenGraph (title-blacklist filtered),
then oEmbed (`basicParseHTML` never returns nil, and neither does the
model, so the nil test before the merge is vacuous). -/
def chainPhase (h : Handler) (r : UnfurlResult) (chunk : PageChunk) : UnfurlResult :=
  match runFetchers h.fetchers chunk.url with
  | some meta => setFromMeta r meta
  | none =>
    match h.openGraph chunk with
    | some res =>
      if ¬ blacklisted h.titleBlacklist res.Title then r.Merge (some res)
      else oembedStep h r chunk
    | none => oembedStep h r chunk

/-- The generic-scan backstop after the `hasMatch:` label (unfurlist.go
lines 351-356): `basicParseHTML` always runs; its contribution is merged
unless its title is blacklisted. -/
def basicStep (h : Handler) (r : UnfurlResult) (chunk : PageChunk) : UnfurlResult :=
  let res := basicParseHTML chunk
  if ¬ blacklisted h.titleBlacklist res.Title then r.Merge (some res) else r

/-- The whole metadata-extraction phase of `processURL` (lines 322-356). -/
def extractPhase (h : Handler) (r : UnfurlResult) (chunk : PageChunk) : UnfurlResult :=
  basicStep h (chainPhase h r chunk) chunk

/-- Icon absolutization (unfurlist.go lines 358-360): only a successful
resolution replaces the icon URL; any error leaves it untouched. -/
def iconResolve (h : Handler) (r : UnfurlResult) : UnfurlResult :=
  match h.absoluteImageURL r.URL r.IconUrl with
  | .ok absU => { r with IconUrl := absU }
  | _ => r

/-- The post-processing switch on the image URL (unfurlist.go lines
358-380): icon absolutization, then the three-way switch on
`absoluteImageURL` — `errEmptyImageURL` is a no-op; on success the image
is kept only if `validURL` accepts it (otherwise only `Image` is
blanked), followed by the optional dimension probe; on any other error
`Image`, `ImageWidth` and `ImageHeight` are all reset. -/
def postProcess (h : Handler) (r : UnfurlResult) : UnfurlResult :=
  let r1 := iconResolve h r
  match h.absoluteImageURL r1.URL r1.Image with
  | .errEmpty => r1
  | .ok absU =>
    let r2 := if h.validURL absU then { r1 with Image := absU } else { r1 with Image := "" }
    if r2.Image ≠ "" ∧ h.fetchImageSize = true ∧ (r2.ImageWidth = 0 ∨ r2.ImageHeight = 0) then
      match h.imageDimensions r2.Image with
      | some wh => { r2 with ImageWidth := wh.1, ImageHeight := wh.2 }
      | none => r2
    else r2
  | .errOther => { r1 with Image := "", ImageWidth := 0, ImageHeight := 0 }

/-- Go `processURL` (unfurlist.go lines 271-389) from the point where the
goroutine owns the in-flight entry for `link`.  Returned are the result
handed back to the orchestrator and the record written to the cache
(`none` when nothing is written).  Order of the code: blacklist-by-trie
test first, then the cache lookup (a decodable hit is returned with only
`idx` restamped), then the fetch (an error returns the bare record), then
the strategy chain, post-processing, and the conditional cache write. -/
def processURL (h : Handler) (i : Int) (link : String) : UnfurlResult × Option UnfurlResult :=
  let result : UnfurlResult := { idx := i, URL := link }
  if h.hasPmap ∧ h.pmapMatch link then (result, none)
  else
    match (if h.hasCache then h.cacheGet link else none) with
    | some cached => ({ cached with idx := i }, none)
    | none =>
      match h.fetchData link with
      | none => (result, none)
      | some chunk =>
        let r2 := postProcess h (extractPhase h result chunk)
        (r2, if h.hasCache ∧ r2.Empty = false then some r2 else none)

/-! ### Definitions taken from the claims' words, for comparison

These two definitions are not translated from the source; each follows
the wording of one claim and is compared against the source-derived
definitions above. -/

/-- Modelled from claim C1's words: the strategy chain in the order
custom fetchers, then oEmbed, then OpenGraph, then the generic scan as
the always-run backstop, merged in that priority order (each strategy
keeps its own filters exactly as in the code; only the relative order of
oEmbed and OpenGraph differs from `chainPhase`). -/
def claimChainC1 (h : Handler) (r : UnfurlResult) (chunk : PageChunk) : UnfurlResult :=
  let afterChain :=
    match runFetchers h.fetchers chunk.url with
    | some meta => setFromMeta r meta
    | none =>
      let ogStep :=
        match h.openGraph chunk with
        | some res =>
          if ¬ blacklisted h.titleBlacklist res.Title then r.Merge (some res) else r
        | none => r
      match h.oembedEndpoint chunk with
      | some endpoint =>
        match h.fetchOembed endpoint with
        | some res => r.Merge (some res)
        | none => ogStep
      | none => ogStep
  basicStep h afterChain chunk

/-- Splits a character list into maximal runs of non-whitespace
characters (Go `strings.Fields`); `cur` is the current run, reversed. -/
def wsFieldsAux : List Char → List Char → List (List Char)
  | [], cur => if cur = [] then [] else [cur.reverse]
  | c :: rest, cur =>
    if c.isWhitespace then
      if cur = [] then wsFieldsAux rest []
      else cur.reverse :: wsFieldsAux rest []
    else wsFieldsAux rest (c :: cur)

/-- Modelled from claim C6's words: `"icon"` appears as one of the
whitespace-delimited tokens of the `rel` value. -/
def relHasIconTokenWS (r : String) : Bool :=
  (wsFieldsAux r.data []).contains "icon".data

/-! ### Concrete environments used by counterexamples and witnesses -/

/-- A handler whose blacklist trie matches everything while the cache
holds a decodable record for the same URL. -/
def hBlkCache : Handler :=
  { hasPmap := true, pmapMatch := fun _ => true,
    hasCache := true, cacheGet := fun _ => some { URL := "http://u/", Title := "CachedTitle" } }

/-- A cache-only handler: no blacklist, a decodable hit for every URL. -/
def hCacheOnly : Handler :=
  { hasCache := true, cacheGet := fun _ => some { URL := "http://u/", Title := "CachedTitle" } }

/-- A handler whose single HTTP response is a 404. -/
def hStatus404 : Handler :=
  { httpGet := fun _ => some { statusCode := 404 } }

/-! ### Claims -/

/-- Claim C2 (code bug).  The claim — and `Valid`'s own doc comment
("Valid check that at least one of the mandatory attributes is
non-empty") — require `Valid` to be `false` when title, description and
image are all empty; the code's `m != nil || ...` (a disjunction where
the documented intent needs `m != nil &&  (...)`) makes it `true` for
every non-nil receiver, in particular for the all-empty `Metadata`. -/
theorem C2_code_bug :
    Metadata.Valid (some ({} : Metadata)) = some true ∧
    ({} : Metadata).Title = "" ∧ ({} : Metadata).Description = "" ∧
    ({} : Metadata).Image = "" := by
  decide

/-- Claim C5 (counterexample): for a sniffed type that is neither
`image/*`, `text/*` nor `video/*` the claim says the category field is
left unset, but `basicParseHTML` leaves `result.Type` at the sniffed
MIME string it was initialised to, here `"application/pdf"` ≠ `""`. -/
theorem C5_counterexample :
    goHasPfx "application/pdf" "image/" = false ∧
    goHasPfx "application/pdf" "text/" = false ∧
    goHasPfx "application/pdf" "video/" = false ∧
    (basicParseHTML { sniffedType := "application/pdf" }).Type' = "application/pdf" ∧
    "application/pdf" ≠ "" := by
  decide

/-- Claim C5 (amended): `image/*` maps to category `image` with the image
field set to the resource's own final URL, `text/*` to `website` with the
extraction results (or nothing but the category when extraction fails),
`video/*` to `video` with no extraction, and any other sniffed type
leaves the type field equal to the sniffed MIME string itself (not
unset). -/
theorem C5_amended :
    ∀ c : PageChunk,
      (goHasPfx c.sniffedType "image/" = true →
        basicParseHTML c = { Type' := "image", Image := c.url }) ∧
      (goHasPfx c.sniffedType "image/" = false → goHasPfx c.sniffedType "text/" = true →
        (∀ e, extractData c.charsetErr c.tokens = .ok e →
          basicParseHTML c = { Type' := "website", Title := e.title,
                               Description := e.description, IconType := e.iconType,
                               IconUrl := e.iconUrl }) ∧
        (∀ err, extractData c.charsetErr c.tokens = .error err →
          basicParseHTML c = { Type' := "website" })) ∧
      (goHasPfx c.sniffedType "image/" = false → goHasPfx c.sniffedType "text/" = false →
        goHasPfx c.sniffedType "video/" = true → basicParseHTML c = { Type' := "video" }) ∧
      (goHasPfx c.sniffedType "image/" = false → goHasPfx c.sniffedType "text/" = false →
        goHasPfx c.sniffedType "video/" = false →
        basicParseHTML c = { Type' := c.sniffedType }) := by
  intro c
  refine ⟨fun h1 => ?_, fun h1 h2 => ⟨fun e he => ?_, fun err he => ?_⟩,
          fun h1 h2 h3 => ?_, fun h1 h2 h3 => ?_⟩ <;>
    simp [basicParseHTML, *]

/-- Claim C5 witness: the amended theorem applied to concrete chunks of
each category. -/
theorem C5_amended_witness :
    basicParseHTML { url := "http://p/i.png", sniffedType := "image/png" }
      = { Type' := "image", Image := "http://p/i.png" } ∧
    basicParseHTML { sniffedType := "video/mp4" } = { Type' := "video" } ∧
    basicParseHTML { sniffedType := "application/pdf" } = { Type' := "application/pdf" } := by
  refine ⟨(C5_amended _).1 (by decide),
          (C5_amended _).2.2.1 (by decide) (by decide) (by decide),
          (C5_amended _).2.2.2 (by decide) (by decide) (by decide)⟩

/-- Claim C4 (counterexample): the cache holds a decodable record for the
URL, yet because the blacklist-by-trie test runs first the pipeline
returns the bare record, not the restamped cached one the claim
requires. -/
theorem C4_counterexample :
    hBlkCache.hasCache = true ∧
    hBlkCache.cacheGet "http://u/" = some { URL := "http://u/", Title := "CachedTitle" } ∧
    processURL hBlkCache 5 "http://u/" = ({ URL := "http://u/", idx := 5 }, none) ∧
    ({ URL := "http://u/", Title := "CachedTitle", idx := 5 } : UnfurlResult)
      ≠ ({ URL := "http://u/", idx := 5 } : UnfurlResult) := by
  decide

/-- Claim C4 (amended): the blacklist-by-trie check runs before the cache
lookup and short-circuits everything, cache included; for a URL the
blacklist does not match, a cache hit whose payload decodes successfully
is returned immediately with only the positional index restamped,
short-circuiting the fetch and the rest of the pipeline. -/
theorem C4_amended :
    (∀ (h : Handler) (i : Int) (link : String),
      h.hasPmap = true → h.pmapMatch link = true →
      processURL h i link = ({ idx := i, URL := link }, none)) ∧
    (∀ (h : Handler) (i : Int) (link : String) (c : UnfurlResult),
      ¬(h.hasPmap = true ∧ h.pmapMatch link = true) →
      h.hasCache = true → h.cacheGet link = some c →
      processURL h i link = ({ c with idx := i }, none)) := by
  constructor
  · intro h i link hp hm
    simp [processURL, hp, hm]
  · intro h i link c hpm hc hget
    simp [processURL, hpm, hc, hget]

/-- Claim C4 witness: both amended clauses at concrete handlers. -/
theorem C4_amended_witness :
    processURL hBlkCache 7 "http://u/" = ({ URL := "http://u/", idx := 7 }, none) ∧
    processURL hCacheOnly 7 "http://u/"
      = ({ URL := "http://u/", Title := "CachedTitle", idx := 7 }, none) := by
  refine ⟨C4_amended.1 hBlkCache 7 "http://u/" rfl rfl, ?_⟩
  have := C4_amended.2 hCacheOnly 7 "http://u/"
      { URL := "http://u/", Title := "CachedTitle" } (by decide) rfl rfl
  exact this

/-- Claim C8 (confirmed): when the single GET for a URL that survives the
blacklist and misses the cache comes back with status ≥ 400, `fetchData`
fails terminally (there is no retry anywhere in `processURL`), the
pipeline returns the record holding only the original URL and the index,
and nothing is written to the cache. -/
theorem C8_theorem :
    ∀ (h : Handler) (i : Int) (link : String) (resp : FetchResponse),
      ¬(h.hasPmap = true ∧ h.pmapMatch link = true) →
      (h.hasCache = true → h.cacheGet link = none) →
      h.httpGet link = some resp →
      400 ≤ resp.statusCode →
      processURL h i link = ({ idx := i, URL := link }, none) := by
  intro h i link resp hpm hc hget hst
  have hfd : h.fetchData link = none := by
    simp [Handler.fetchData, hget, hst]
  cases hcache : h.hasCache with
  | true => simp [processURL, hpm, hcache, hc hcache, hfd]
  | false => simp [processURL, hpm, hcache, hfd]

/-- Claim C8 witness: a 404 response at a concrete handler. -/
theorem C8_theorem_witness :
    processURL hStatus404 3 "http://gone/" = ({ URL := "http://gone/", idx := 3 }, none) := by
  exact C8_theorem hStatus404 3 "http://gone/" { statusCode := 404 }
    (by decide) (fun hfalse => by simp [hStatus404] at hfalse) (by decide) (by decide)

/-- A handler where OpenGraph and oEmbed both produce a titled result, to
observe which of the two the chain prefers. -/
def hOgOe : Handler :=
  { openGraph := fun _ => some { Title := "OG" },
    oembedEndpoint := fun _ => some "ep",
    fetchOembed := fun _ => some { Title := "OE" } }

/-- A non-HTML chunk, so the generic backstop contributes no title. -/
def chunkPlain : PageChunk := { url := "http://x/", sniffedType := "application/x-test" }

/-- A handler whose custom fetcher returns a title containing the
configured blacklist fragment. -/
def hFetcherBlk : Handler :=
  { titleBlacklist := ["bad"], fetchers := [fun _ => some { Title := "BAD news" }] }

/-- Merging never changes a non-empty title (helper shared by several
claims). -/
theorem Merge_Title_of_ne (u v : UnfurlResult) (hu : u.Title ≠ "") :
    (u.Merge (some v)).Title = u.Title := by
  simp [UnfurlResult.Merge, hu]

/-- The generic-scan backstop never changes a non-empty title. -/
theorem basicStep_Title_of_ne (h : Handler) (r : UnfurlResult) (chunk : PageChunk)
    (hr : r.Title ≠ "") : (basicStep h r chunk).Title = r.Title := by
  by_cases hbl : blacklisted h.titleBlacklist (basicParseHTML chunk).Title = true
  · simp [basicStep, hbl]
  · simp only [basicStep, hbl, not_false_eq_true, if_true]
    exact Merge_Title_of_ne r _ hr

/-- Claim C1 (counterexample): with no custom fetchers, an OpenGraph
result titled `"OG"` and an oEmbed result titled `"OE"` both available,
the code's chain keeps the OpenGraph title while the claimed order
(custom → oEmbed → OpenGraph → generic) would keep the oEmbed title. -/
theorem C1_counterexample :
    (extractPhase hOgOe { URL := "http://x/" } chunkPlain).Title = "OG" ∧
    (claimChainC1 hOgOe { URL := "http://x/" } chunkPlain).Title = "OE" ∧
    ("OG" : String) ≠ "OE" := by
  decide

/-- Claim C1 (amended): the strategies are evaluated in the order custom
fetchers → OpenGraph → oEmbed → generic HTML tag scan (the scan being an
always-run backstop), merged in that priority order: a matching custom
fetcher bypasses OpenGraph and oEmbed; a non-blacklisted OpenGraph match
bypasses oEmbed; otherwise oEmbed runs; and the final generic pass never
overrides the primary strategy's non-empty title. -/
theorem C1_amended :
    (∀ (h : Handler) (r : UnfurlResult) (chunk : PageChunk) (meta : Metadata),
      runFetchers h.fetchers chunk.url = some meta →
      extractPhase h r chunk = basicStep h (setFromMeta r meta) chunk) ∧
    (∀ (h : Handler) (r : UnfurlResult) (chunk : PageChunk) (res : UnfurlResult),
      runFetchers h.fetchers chunk.url = none →
      h.openGraph chunk = some res →
      blacklisted h.titleBlacklist res.Title = false →
      extractPhase h r chunk = basicStep h (r.Merge (some res)) chunk) ∧
    (∀ (h : Handler) (r : UnfurlResult) (chunk : PageChunk),
      runFetchers h.fetchers chunk.url = none →
      (h.openGraph chunk = none ∨
        ∃ res, h.openGraph chunk = some res ∧ blacklisted h.titleBlacklist res.Title = true) →
      extractPhase h r chunk = basicStep h (oembedStep h r chunk) chunk) ∧
    (∀ (h : Handler) (r : UnfurlResult) (chunk : PageChunk) (res : UnfurlResult),
      runFetchers h.fetchers chunk.url = none →
      h.openGraph chunk = some res →
      blacklisted h.titleBlacklist res.Title = false →
      r.Title = "" → res.Title ≠ "" →
      (extractPhase h r chunk).Title = res.Title) := by
  refine ⟨?_, ?_, ?_, ?_⟩
  · intro h r chunk meta hf
    simp [extractPhase, chainPhase, hf]
  · intro h r chunk res hf hog hbl
    simp [extractPhase, chainPhase, hf, hog, hbl]
  · intro h r chunk hf hog
    rcases hog with hnone | ⟨res, hsome, hbl⟩
    · simp [extractPhase, chainPhase, hf, hnone]
    · simp [extractPhase, chainPhase, hf, hsome, hbl]
  · intro h r chunk res hf hog hbl hr hres
    have hmt : (r.Merge (some res)).Title = res.Title := by
      simp [UnfurlResult.Merge, hr]
    calc (extractPhase h r chunk).Title
        = (basicStep h (r.Merge (some res)) chunk).Title := by
          simp [extractPhase, chainPhase, hf, hog, hbl]
      _ = (r.Merge (some res)).Title := by
          exact basicStep_Title_of_ne h _ chunk (by rw [hmt]; exact hres)
      _ = res.Title := hmt

/-- Claim C1 witness: the OpenGraph-before-oEmbed clause and the
priority clause at a concrete handler. -/
theorem C1_amended_witness :
    extractPhase hOgOe { URL := "http://x/" } chunkPlain
      = basicStep hOgOe
          (({ URL := "http://x/" } : UnfurlResult).Merge (some { Title := "OG" })) chunkPlain ∧
    (extractPhase hOgOe { URL := "http://x/" } chunkPlain).Title = "OG" := by
  refine ⟨C1_amended.2.1 hOgOe _ chunkPlain { Title := "OG" } rfl rfl (by decide), ?_⟩
  exact C1_amended.2.2.2 hOgOe _ chunkPlain { Title := "OG" } rfl rfl (by decide) rfl (by decide)

/-- Claim C9 (counterexample): the custom fetcher's title contains the
blacklist fragment `"bad"`, yet its whole contribution — the title
included — is merged: custom-fetcher results never pass through the
title-blacklist filter, contradicting the claim's "every strategy in the
chain (including custom fetchers)". -/
theorem C9_counterexample :
    blacklisted hFetcherBlk.titleBlacklist "BAD news" = true ∧
    (extractPhase hFetcherBlk { URL := "http://x/" }
      { sniffedType := "application/x-t" }).Title = "BAD news" := by
  decide

/-- Claim C9 (amended): only the OpenGraph and generic-HTML-scan
strategies are filtered by the title blacklist — a blacklisted title
there discards that strategy's whole contribution (not just the title)
and the chain proceeds; custom-fetcher and oEmbed contributions are
merged without any blacklist check. -/
theorem C9_amended :
    (∀ (h : Handler) (r : UnfurlResult) (chunk : PageChunk) (res : UnfurlResult),
      runFetchers h.fetchers chunk.url = none →
      h.openGraph chunk = some res →
      blacklisted h.titleBlacklist res.Title = true →
      chainPhase h r chunk = oembedStep h r chunk) ∧
    (∀ (h : Handler) (r : UnfurlResult) (chunk : PageChunk),
      blacklisted h.titleBlacklist (basicParseHTML chunk).Title = true →
      basicStep h r chunk = r) ∧
    (∀ (h : Handler) (r : UnfurlResult) (chunk : PageChunk) (meta : Metadata),
      runFetchers h.fetchers chunk.url = some meta →
      chainPhase h r chunk = setFromMeta r meta) ∧
    (∀ (h : Handler) (r : UnfurlResult) (chunk : PageChunk) (ep : String) (res : UnfurlResult),
      runFetchers h.fetchers chunk.url = none →
      h.openGraph chunk = none →
      h.oembedEndpoint chunk = some ep →
      h.fetchOembed ep = some res →
      chainPhase h r chunk = r.Merge (some res)) := by
  refine ⟨?_, ?_, ?_, ?_⟩
  · intro h r chunk res hf hog hbl
    simp [chainPhase, hf, hog, hbl]
  · intro h r chunk hbl
    simp [basicStep, hbl]
  · intro h r chunk meta hf
    simp [chainPhase, hf]
  · intro h r chunk ep res hf hog hep hoe
    simp [chainPhase, oembedStep, hf, hog, hep, hoe]

/-- Claim C9 witness: the unfiltered custom-fetcher clause at the
concrete blacklisted-title handler. -/
theorem C9_amended_witness :
    chainPhase hFetcherBlk { URL := "http://x/" } { sniffedType := "application/x-t" }
      = setFromMeta { URL := "http://x/" } { Title := "BAD news" } := by
  exact C9_amended.2.2.1 hFetcherBlk _ _ { Title := "BAD news" } rfl

/-- A handler whose custom fetcher returns a non-empty icon type with an
empty icon URL (any Go `FetchFunc` may do this). -/
def hIconTypeOnly : Handler :=
  { fetchers := [fun _ => some { Title := "T0", IconType := "image/png" }] }

/-- An HTML chunk whose `<link rel=icon>` has an `href` but no `type`
attribute, so the generic scan yields an icon URL with an empty icon
type. -/
def chunkIconNoType : PageChunk :=
  { url := "http://x/", sniffedType := "text/html; charset=utf-8",
    tokens := [.startTag .link [("rel", "icon"), ("href", "/f.ico")],
               .startTag .title [], .text "BT"] }

/-- A handler whose URL resolution is the identity on non-empty strings
and whose scheme validation rejects everything. -/
def hAbsIdNoValid : Handler :=
  { absoluteImageURL := fun _ img => if img = "" then .errEmpty else .ok img,
    validURL := fun _ => false }

/-- A handler whose URL resolution always fails with a non-empty-URL
error. -/
def hAbsFail : Handler :=
  { absoluteImageURL := fun _ _ => .errOther }

/-- An accumulator with a populated image triple entering
post-processing. -/
def rBadImage : UnfurlResult :=
  { URL := "http://x/", Image := "ftp://img/", ImageWidth := 10, ImageHeight := 20 }

/-- Claim C3 (counterexample): after the custom-fetcher strategy the
accumulator's `IconType` is the non-empty `"image/png"` (with an empty
`IconUrl`); merging the later generic-scan strategy — whose icon link has
an `href` but no `type` — overwrites that non-empty `IconType` with the
empty string.  `IconType` is not one of the image fields and no
post-processing is involved, contradicting "a field already non-empty …
is never overwritten … the only exception is the image fields". -/
theorem C3_counterexample :
    (setFromMeta { URL := "http://x/" } { Title := "T0", IconType := "image/png" }).IconType
      = "image/png" ∧
    (extractPhase hIconTypeOnly { URL := "http://x/" } chunkIconNoType).IconType = "" ∧
    (extractPhase hIconTypeOnly { URL := "http://x/" } chunkIconNoType).IconUrl = "/f.ico" ∧
    ("image/png" : String) ≠ "" := by
  decide

/-- Claim C3 (amended): the merge is first-non-empty-wins for each of
URL, title, type, description, site name, image URL, image width, image
height and icon URL, with two exceptions: (1) the icon type is coupled to
the icon URL — whenever the accumulator's icon URL is empty and the
incoming one is not, both icon fields are taken from the incoming result,
overwriting even a non-empty icon type; (2) in post-processing, an image
URL whose resolved form fails scheme validation is reset to empty (width
and height are retained), and a resolution error other than
empty-image-URL resets image URL, width and height together. -/
theorem C3_amended :
    (∀ u v : UnfurlResult,
      (u.URL ≠ "" → (u.Merge (some v)).URL = u.URL) ∧
      (u.Title ≠ "" → (u.Merge (some v)).Title = u.Title) ∧
      (u.Type' ≠ "" → (u.Merge (some v)).Type' = u.Type') ∧
      (u.Description ≠ "" → (u.Merge (some v)).Description = u.Description) ∧
      (u.SiteName ≠ "" → (u.Merge (some v)).SiteName = u.SiteName) ∧
      (u.Image ≠ "" → (u.Merge (some v)).Image = u.Image) ∧
      (u.ImageWidth ≠ 0 → (u.Merge (some v)).ImageWidth = u.ImageWidth) ∧
      (u.ImageHeight ≠ 0 → (u.Merge (some v)).ImageHeight = u.ImageHeight) ∧
      (u.IconUrl ≠ "" →
        (u.Merge (some v)).IconUrl = u.IconUrl ∧ (u.Merge (some v)).IconType = u.IconType) ∧
      (u.IconUrl = "" → v.IconUrl ≠ "" →
        (u.Merge (some v)).IconUrl = v.IconUrl ∧ (u.Merge (some v)).IconType = v.IconType)) ∧
    (∀ (h : Handler) (r : UnfurlResult) (absU : String),
      h.absoluteImageURL (iconResolve h r).URL (iconResolve h r).Image = .ok absU →
      h.validURL absU = false →
      postProcess h r = { iconResolve h r with Image := "" }) ∧
    (∀ (h : Handler) (r : UnfurlResult),
      h.absoluteImageURL (iconResolve h r).URL (iconResolve h r).Image = .errOther →
      postProcess h r = { iconResolve h r with Image := "", ImageWidth := 0, ImageHeight := 0 }) := by
  refine ⟨?_, ?_, ?_⟩
  · intro u v
    refine ⟨fun hne => ?_, fun hne => ?_, fun hne => ?_, fun hne => ?_, fun hne => ?_,
            fun hne => ?_, fun hne => ?_, fun hne => ?_, fun hne => ?_, fun he hv => ?_⟩ <;>
      simp [UnfurlResult.Merge, *]
  · intro h r absU habs hv
    simp [postProcess, habs, hv]
  · intro h r habs
    simp [postProcess, habs]

/-- Claim C3 witness: the title clause, the icon-coupling exception and
both post-processing clauses at concrete inputs. -/
theorem C3_amended_witness :
    (({ Title := "A" } : UnfurlResult).Merge (some { Title := "B" })).Title = "A" ∧
    ((({ IconType := "keep" } : UnfurlResult).Merge
        (some { IconUrl := "/f.ico" })).IconUrl = "/f.ico" ∧
      (({ IconType := "keep" } : UnfurlResult).Merge
        (some { IconUrl := "/f.ico" })).IconType = "") ∧
    postProcess hAbsIdNoValid rBadImage = { iconResolve hAbsIdNoValid rBadImage with Image := "" } ∧
    postProcess hAbsFail rBadImage
      = { iconResolve hAbsFail rBadImage with Image := "", ImageWidth := 0, ImageHeight := 0 } := by
  refine ⟨(C3_amended.1 _ _).2.1 (by decide),
          (C3_amended.1 _ _).2.2.2.2.2.2.2.2.2 rfl (by decide),
          C3_amended.2.1 hAbsIdNoValid rBadImage "ftp://img/" (by decide) rfl,
          C3_amended.2.2 hAbsFail rBadImage rfl⟩

/-- A `<title>` start tag whose title was already captured is skipped
whatever follows it (helper). -/
theorem scanSt_title_skip (st : ScanState) (attrs : List (String × String))
    (rest : List Token) (h : st.title ≠ "") :
    scanSt st (.startTag .title attrs :: rest) = scanSt st rest := by
  cases rest with
  | nil => simp [scanSt, h]
  | cons tok2 rest2 => cases tok2 <;> simp [scanSt, h]

/-- The scanning loop never overwrites a non-empty title or a non-empty
description (helper shared by the scan claims). -/
theorem scanSt_ok_mono (st : ScanState) (toks : List Token) :
    ∀ st', scanSt st toks = .ok st' →
    (st.title ≠ "" → st'.title = st.title) ∧
    (st.description ≠ "" → st'.description = st.description) := by
  induction st, toks using scanSt.induct
  all_goals intro st' heq
  all_goals try (simp_all [scanSt])
  all_goals try (split at heq <;> simp_all)
  next =>
    rename_i h0 ih0
    rw [scanSt_title_skip _ _ _ h0] at heq
    exact ih0 st' heq
  next => cases heq; rfl
  next => cases heq; rfl

/-- Claim C7 (counterexample): in this document title, description and
icon are all present after the fourth token, yet the scan continues and
the fifth token — a further `<link rel=icon>` — overwrites the icon URL
`"a"` with `"b"`.  The `atom.Link` case has no early-exit check, so the
claimed "stops as soon as title, description, and icon have all been
found" and "no tag after that point can change the extracted values"
both fail when the icon is the last of the three to be found. -/
theorem C7_counterexample :
    extractData false
        [.startTag .title [], .text "T",
         .startTag .meta [("name", "description"), ("content", "D")],
         .startTag .link [("rel", "icon"), ("href", "a")],
         .startTag .link [("rel", "icon"), ("href", "b")]]
      = .ok { title := "T", description := "D", iconType := "", iconUrl := "b" } ∧
    ("b" : String) ≠ "a" := by
  decide

/-- Claim C7 (amended): the scan never overwrites a non-empty captured
title or description (so the first successfully captured occurrence
wins); it stops at the `<body>` tag, and right after capturing a title or
a description when the other two fields are already non-empty; capturing
an icon never stops the scan — scanning continues and a later icon link
overwrites the previously captured icon. -/
theorem C7_amended :
    (∀ (toks : List Token) (st st' : ScanState),
      scanSt st toks = .ok st' → st.title ≠ "" → st'.title = st.title) ∧
    (∀ (toks : List Token) (st st' : ScanState),
      scanSt st toks = .ok st' → st.description ≠ "" → st'.description = st.description) ∧
    (∀ (st : ScanState) (a : List (String × String)) (s : String) (rest : List Token),
      st.title = "" → st.description ≠ "" → st.iconUrl ≠ "" →
      scanSt st (.startTag .title a :: .text s :: rest) = .ok { st with title := s }) ∧
    (∀ (st : ScanState) (attrs : List (String × String)) (rest : List Token) (content : String),
      st.description = "" → st.title ≠ "" → st.iconUrl ≠ "" →
      metaAttrs attrs false "" = some (true, content) → content ≠ "" →
      scanSt st (.startTag .meta attrs :: rest) = .ok { st with description := content }) ∧
    (∀ (st : ScanState) (attrs : List (String × String)) (rest : List Token)
        (r ty href : String),
      linkAttrs attrs = (r, ty, href) → isRelIcon r = true → href ≠ "" →
      scanSt st (.startTag .link attrs :: rest)
        = scanSt { st with iconUrl := href, iconType := ty } rest) ∧
    (∀ (st : ScanState) (attrs : List (String × String)) (rest : List Token),
      scanSt st (.startTag .body attrs :: rest) = .ok st) := by
  refine ⟨?_, ?_, ?_, ?_, ?_, ?_⟩
  · intro toks st st' heq ht
    exact (scanSt_ok_mono st toks st' heq).1 ht
  · intro toks st st' heq hd
    exact (scanSt_ok_mono st toks st' heq).2 hd
  · intro st a s rest ht hd hi
    simp [scanSt, ht, hd, hi]
  · intro st attrs rest content hd ht hi hattrs hc
    simp [scanSt, hd, ht, hi, hattrs, hc]
  · intro st attrs rest r ty href hattrs hrel hhref
    simp [scanSt, hattrs, hrel, hhref]
  · intro st attrs rest
    simp [scanSt]

/-- Claim C7 witness: the title-preservation clause, the link-continues
clause and the title-capture early stop at concrete inputs. -/
theorem C7_amended_witness :
    ({ title := "T", description := "D" } : ScanState).title
      = ({ title := "T" } : ScanState).title ∧
    scanSt { title := "T", description := "D", iconUrl := "a" }
        [.startTag .link [("rel", "icon"), ("href", "b")]]
      = scanSt { title := "T", description := "D", iconUrl := "b", iconType := "" } [] ∧
    scanSt { description := "D", iconUrl := "i" }
        (.startTag .title [] :: .text "T2" :: [.startTag .link [("rel", "icon"), ("href", "z")]])
      = .ok { title := "T2", description := "D", iconType := "", iconUrl := "i" } := by
  refine ⟨?_, ?_, ?_⟩
  · exact C7_amended.1 [.startTag .meta [("name", "description"), ("content", "D")]]
      { title := "T" } { title := "T", description := "D" } (by decide) (by decide)
  · exact C7_amended.2.2.2.2.1 { title := "T", description := "D", iconUrl := "a" }
      [("rel", "icon"), ("href", "b")] [] "icon" "" "b" rfl (by decide) (by decide)
  · exact C7_amended.2.2.1 { description := "D", iconUrl := "i" } [] "T2"
      [.startTag .link [("rel", "icon"), ("href", "z")]] rfl (by decide) (by decide)

/-- Claim C6 (counterexample): in `rel="shortcut\ticon"` the token
`"icon"` is whitespace-delimited (tab-separated), the `href` is
non-empty, yet the scan captures nothing: the code only recognises
single-space-separated tokens (`rel == "icon"`, `HasPrefix "icon "`,
`Contains " icon "`, `HasSuffix " icon"`). -/
theorem C6_counterexample :
    relHasIconTokenWS "shortcut\ticon" = true ∧
    isRelIcon "shortcut\ticon" = false ∧
    extractData false
        [.startTag .link [("rel", "shortcut\ticon"), ("href", "/f.ico")],
         .startTag .title [], .text "T"]
      = .ok { title := "T", description := "", iconType := "", iconUrl := "" } ∧
    ("/f.ico" : String) ≠ "" := by
  decide

/-- Claim C6 (amended): for a `<link>` tag with rel value `r` and a
non-empty href, the icon URL and type are captured iff `"icon"` appears
as one of the single-space-delimited tokens of `r` — that is, iff `r`
equals `"icon"`, starts with `"icon "`, contains `" icon "`, or ends
with `" icon"` (`isRelIcon`); tokens separated by other whitespace such
as tabs are not recognised. -/
theorem C6_amended (r ty href : String) (hhref : href ≠ "") :
    extractData false
        [.startTag .link [("rel", r), ("type", ty), ("href", href)],
         .startTag .title [], .text "T"]
      = .ok { title := "T", description := "",
              iconType := if isRelIcon r then ty else "",
              iconUrl := if isRelIcon r then href else "" } := by
  by_cases hI : isRelIcon r = true
  · simp [extractData, scanSt, linkAttrs, hI, hhref]
  · simp [extractData, scanSt, linkAttrs, hI]

/-- Claim C6 witness: a two-token `rel="shortcut icon"` is captured. -/
theorem C6_amended_witness :
    extractData false
        [.startTag .link [("rel", "shortcut icon"), ("type", "image/png"), ("href", "/f.ico")],
         .startTag .title [], .text "T"]
      = .ok { title := "T", description := "",
              iconType := if isRelIcon "shortcut icon" then "image/png" else "",
              iconUrl := if isRelIcon "shortcut icon" then "/f.ico" else "" } ∧
    isRelIcon "shortcut icon" = true :=
  ⟨C6_amended "shortcut icon" "image/png" "/f.ico" (by decide), by decide⟩

/-- Claim C10 (confirmed): when the scan of a `text/*` chunk ends with an
icon found but no title and no description, `extractData` returns the
no-metadata error with all fields empty, so `basicParseHTML` contributes
neither icon URL nor icon type (its result carries only the `website`
category): the basic-HTML strategy contributes no icon for icon-only
pages. -/
theorem C10_theorem :
    ∀ (c : PageChunk) (st : ScanState),
      goHasPfx c.sniffedType "image/" = false →
      goHasPfx c.sniffedType "text/" = true →
      c.charsetErr = false →
      scanSt {} c.tokens = .ok st →
      st.title = "" → st.description = "" → st.iconUrl ≠ "" →
      extractData c.charsetErr c.tokens = .error .noMetadataFound ∧
      basicParseHTML c = { Type' := "website" } := by
  intro c st h1 h2 hch hscan ht hd hi
  have hex : extractData c.charsetErr c.tokens = .error .noMetadataFound := by
    simp [extractData, hch, hscan, ht, hd]
  exact ⟨hex, by simp [basicParseHTML, h1, h2, hex]⟩

/-- Claim C10 witness: an icon-only head at a concrete chunk. -/
theorem C10_theorem_witness :
    extractData false [.startTag .link [("rel", "icon"), ("href", "/f.ico")], .other]
      = .error .noMetadataFound ∧
    basicParseHTML
        { sniffedType := "text/html",
          tokens := [.startTag .link [("rel", "icon"), ("href", "/f.ico")], .other] }
      = { Type' := "website" } := by
  exact C10_theorem
    { sniffedType := "text/html",
      tokens := [.startTag .link [("rel", "icon"), ("href", "/f.ico")], .other] }
    { iconUrl := "/f.ico" }
    (by decide) (by decide) rfl (by decide) rfl rfl (by decide)

end Unfurlist
